import Mathlib

/-!
Shallow embedding of the WebSocket-TestClient repository (Rust) for
verification of its natural-language specification.

Modelling conventions:
* Rust structs become Lean structures with the same field names
  (`r#type` becomes `type`).
* JSON texts are modelled at the JSON-tree level: `serde_json::to_string`
  is `render ∘ toJson` and `serde_json::from_str` is `fromJson ∘ parse`,
  where `render`/`parse` are the external serde_json text layer (a faithful
  bijection between trees and their textual form for the shapes occurring
  here).  The program-defined content — field names, `#[serde(rename)]`
  attributes, optionality, enum tagging and failure behaviour — is embedded
  explicitly in the `toJson`/`fromJson` functions below, following serde's
  derive semantics (objects decoded by field lookup, unknown fields
  ignored, a missing or null `Option` field decodes to `None`).
* `u16` is modelled as `Nat` and `i64` as `Int`; the Rust types carry the
  range invariant, which no claim depends on.
* `f32` is modelled as its IEEE-754 bit pattern.  serde_json serializes a
  non-finite `f32` (NaN or an infinity) as JSON `null`, and deserializing
  `null` into an `f32` fails; `encodeF32`/`decodeF32` reproduce exactly
  this behaviour.  Finite floats round-trip exactly through serde_json's
  shortest-representation printing, so they are carried through unchanged.
* `anyhow`'s `.context(...)` / `.with_context(...)` is modelled by
  prepending the context message to the error string.  Rust format
  placeholders that splice the offending payload into the message are
  dropped from the modelled message text (they do not affect any claim).
* Fallible Rust functions returning `Result<T, anyhow::Error>` become
  `Except String T`.
-/

-- ===========================================================================
-- JSON trees and the f32 bit-pattern model
-- ===========================================================================

/-- An `f32` value, identified with its IEEE-754 bit pattern. -/
structure F32 where
  bits : Nat
deriving DecidableEq

/-- A finite `f32` is one whose exponent field is not all ones
(all-ones exponent encodes NaN and the infinities). -/
def F32.isFinite (x : F32) : Bool :=
  decide (x.bits / 8388608 % 256 ≠ 255)

/-- JSON trees as produced/consumed by serde_json for the types of this
program.  Integer and floating tokens are distinguished, as serde_json's
typed (de)serializers distinguish them. -/
inductive Json where
  | null : Json
  | bool : Bool → Json
  | int : Int → Json
  | float : F32 → Json
  | str : String → Json
  | arr : List Json → Json
  | obj : List (String × Json) → Json

/-- First binding of a key in a JSON object (serde decodes structs by
field name, independent of field order). -/
def lookupField (fields : List (String × Json)) (key : String) : Option Json :=
  match fields with
  | [] => none
  | (k, v) :: rest => if k = key then some v else lookupField rest key

/-- Decode a required struct field. -/
def reqField (fields : List (String × Json)) (key : String)
    (dec : Json → Except String α) : Except String α :=
  match lookupField fields key with
  | some v => dec v
  | none => .error ("missing field " ++ key)

/-- Decode an `Option` struct field: serde treats a missing field and an
explicit `null` both as `None`. -/
def optField (fields : List (String × Json)) (key : String)
    (dec : Json → Except String α) : Except String (Option α) :=
  match lookupField fields key with
  | none => .ok none
  | some .null => .ok none
  | some v => (dec v).map some

def decodeString : Json → Except String String
  | .str s => .ok s
  | _ => .error "expected a string"

def decodeBool : Json → Except String Bool
  | .bool b => .ok b
  | _ => .error "expected a boolean"

/-- Decode a `u16` (modelled as `Nat`; serde rejects a negative or
non-integer token). -/
def decodeU16 : Json → Except String Nat
  | .int n => if 0 ≤ n then .ok n.toNat else .error "expected an unsigned integer"
  | _ => .error "expected an integer"

/-- Decode an `i64` (modelled as `Int`; serde rejects a non-integer token). -/
def decodeI64 : Json → Except String Int
  | .int n => .ok n
  | _ => .error "expected an integer"

/-- serde_json writes a finite `f32` as a numeric token and a non-finite
one as `null`. -/
def encodeF32 (x : F32) : Json :=
  if x.isFinite then .float x else .null

/-- Deserializing into `f32` requires a floating token; in particular
`null` (the image of a non-finite float) is rejected. -/
def decodeF32 : Json → Except String F32
  | .float x => .ok x
  | _ => .error "expected an f32"

def decodeListAux (dec : Json → Except String α) : List Json → Except String (List α)
  | [] => .ok []
  | x :: xs => do
      let a ← dec x
      let as ← decodeListAux dec xs
      .ok (a :: as)

def decodeList (dec : Json → Except String α) : Json → Except String (List α)
  | .arr xs => decodeListAux dec xs
  | _ => .error "expected an array"

def exceptIsOk : Except ε α → Bool
  | .ok _ => true
  | .error _ => false

-- ===========================================================================
-- src/src/ChatSurfer/messages.rs — error bodies and supporting structures
-- ===========================================================================

/-- Constant `MAX_REQUESTS_PER_MINUTE` (src/src/ChatSurfer/messages.rs:22, an `i32`). -/
def MAX_REQUESTS_PER_MINUTE : Nat := 60

/-- Constant `UNCLASSIFIED_STRING` (src/src/ChatSurfer/messages.rs:35). -/
def UNCLASSIFIED_STRING : String := "UNCLASSIFIED"

/-- Struct `FieldErrorSchema` (src/src/ChatSurfer/messages.rs:679). -/
structure FieldErrorSchema where
  field_name : String
  message : String
  message_arguments : List String
  message_code : String
  rejected_value : String
deriving DecidableEq

def FieldErrorSchema.toJson (e : FieldErrorSchema) : Json :=
  .obj [("fieldName", .str e.field_name),
        ("message", .str e.message),
        ("messageArguments", .arr (e.message_arguments.map Json.str)),
        ("messageCode", .str e.message_code),
        ("rejectedValue", .str e.rejected_value)]

def FieldErrorSchema.fromJson : Json → Except String FieldErrorSchema
  | .obj fields => do
      let fn ← reqField fields "fieldName" decodeString
      let msg ← reqField fields "message" decodeString
      let args ← reqField fields "messageArguments" (decodeList decodeString)
      let code ← reqField fields "messageCode" decodeString
      let rv ← reqField fields "rejectedValue" decodeString
      .ok ⟨fn, msg, args, code, rv⟩
  | _ => .error "expected an object"

/-- Struct `ErrorCode400` (src/src/ChatSurfer/messages.rs:99). -/
structure ErrorCode400 where
  classification : String
  code : Nat
  field_errors : List FieldErrorSchema
  message : String
deriving DecidableEq

def ErrorCode400.toJson (e : ErrorCode400) : Json :=
  .obj [("classification", .str e.classification),
        ("code", .int e.code),
        ("fieldErrors", .arr (e.field_errors.map FieldErrorSchema.toJson)),
        ("message", .str e.message)]

def ErrorCode400.fromJson : Json → Except String ErrorCode400
  | .obj fields => do
      let cls ← reqField fields "classification" decodeString
      let code ← reqField fields "code" decodeU16
      let fes ← reqField fields "fieldErrors" (decodeList FieldErrorSchema.fromJson)
      let msg ← reqField fields "message" decodeString
      .ok ⟨cls, code, fes, msg⟩
  | _ => .error "expected an object"

/-- Function `ErrorCode400::try_from_string` (src/src/ChatSurfer/messages.rs:147). -/
def ErrorCode400.try_from_string (source : Json) : Except String ErrorCode400 :=
  (ErrorCode400.fromJson source).mapError
    (fun e => "Unable to create ErrorCode400 struct from String: " ++ e)

/-- Struct `ErrorCode404` (src/src/ChatSurfer/messages.rs:173). -/
structure ErrorCode404 where
  classification : String
  code : Nat
  message : String
deriving DecidableEq

def ErrorCode404.toJson (e : ErrorCode404) : Json :=
  .obj [("classification", .str e.classification),
        ("code", .int e.code),
        ("message", .str e.message)]

def ErrorCode404.fromJson : Json → Except String ErrorCode404
  | .obj fields => do
      let cls ← reqField fields "classification" decodeString
      let code ← reqField fields "code" decodeU16
      let msg ← reqField fields "message" decodeString
      .ok ⟨cls, code, msg⟩
  | _ => .error "expected an object"

/-- Function `ErrorCode404::try_from_string` (src/src/ChatSurfer/messages.rs:197). -/
def ErrorCode404.try_from_string (source : Json) : Except String ErrorCode404 :=
  (ErrorCode404.fromJson source).mapError
    (fun e => "Unable to create ErrorCode404 struct from String: " ++ e)

-- ===========================================================================
-- src/src/ChatSurfer/messages.rs — location / geotag / chat message schemas
-- ===========================================================================

/-- Enum `LocationType` (src/src/ChatSurfer/messages.rs:799). -/
inductive LocationType where
  | Point
  | Polygon
deriving DecidableEq

/-- Unit enum variants serialize as their name string. -/
def LocationType.toJson : LocationType → Json
  | .Point => .str "Point"
  | .Polygon => .str "Polygon"

def LocationType.fromJson : Json → Except String LocationType
  | .str s =>
      if s = "Point" then .ok .Point
      else if s = "Polygon" then .ok .Polygon
      else .error "unknown LocationType variant"
  | _ => .error "expected a string"

/-- Struct `PointLocation` (src/src/ChatSurfer/messages.rs:812, an empty struct). -/
structure PointLocation
deriving DecidableEq

def PointLocation.toJson (_ : PointLocation) : Json := .obj []

def PointLocation.fromJson : Json → Except String PointLocation
  | .obj _ => .ok ⟨⟩
  | _ => .error "expected an object"

/-- Struct `PolygonLocation` (src/src/ChatSurfer/messages.rs:817). -/
structure PolygonLocation where
  type : String
  coordinates : List (List F32)
deriving DecidableEq

def PolygonLocation.toJson (p : PolygonLocation) : Json :=
  .obj [("type", .str p.type),
        ("coordinates", .arr (p.coordinates.map (fun row => Json.arr (row.map encodeF32))))]

def PolygonLocation.fromJson : Json → Except String PolygonLocation
  | .obj fields => do
      let t ← reqField fields "type" decodeString
      let cs ← reqField fields "coordinates" (decodeList (decodeList decodeF32))
      .ok ⟨t, cs⟩
  | _ => .error "expected an object"

def PolygonLocation.allFinite (p : PolygonLocation) : Bool :=
  p.coordinates.all (fun row => row.all F32.isFinite)

/-- Function `PolygonLocation::new` (src/src/ChatSurfer/messages.rs:824). -/
def PolygonLocation.new (new_coordinates : List (List F32)) : PolygonLocation :=
  ⟨"Polygon", new_coordinates⟩

/-- IEEE-754 bit pattern of `90.0f32`. -/
def f32_90 : F32 := ⟨1119092736⟩
/-- IEEE-754 bit pattern of `180.0f32`. -/
def f32_180 : F32 := ⟨1127481344⟩
/-- IEEE-754 bit pattern of `-90.0f32`. -/
def f32_neg90 : F32 := ⟨3266576384⟩
/-- IEEE-754 bit pattern of `-180.0f32`. -/
def f32_neg180 : F32 := ⟨3274964992⟩

/-- Function `PolygonLocation::test` (src/src/ChatSurfer/messages.rs:831). -/
def PolygonLocation.test (seed : F32) : PolygonLocation :=
  ⟨"Polygon", [[seed]]⟩

/-- Function `PolygonLocation::world_coordinates` (src/src/ChatSurfer/messages.rs:838). -/
def PolygonLocation.world_coordinates : List (List F32) :=
  [[f32_90, f32_180], [f32_90, f32_neg180], [f32_neg90, f32_neg180], [f32_neg90, f32_180]]

/-- Enum `LocationTypes` (src/src/ChatSurfer/messages.rs:849). -/
inductive LocationTypes where
  | Point (location : PointLocation)
  | Polygon (location : PolygonLocation)
deriving DecidableEq

/-- Externally tagged enum encoding, serde's default for `LocationTypes`. -/
def LocationTypes.toJson : LocationTypes → Json
  | .Point location => .obj [("Point", .obj [("location", PointLocation.toJson location)])]
  | .Polygon location => .obj [("Polygon", .obj [("location", PolygonLocation.toJson location)])]

def LocationTypes.fromJson : Json → Except String LocationTypes
  | .obj [(k, v)] =>
      if k = "Point" then
        match v with
        | .obj fs => (reqField fs "location" PointLocation.fromJson).map .Point
        | _ => .error "expected variant content object"
      else if k = "Polygon" then
        match v with
        | .obj fs => (reqField fs "location" PolygonLocation.fromJson).map .Polygon
        | _ => .error "expected variant content object"
      else .error "unknown LocationTypes variant"
  | _ => .error "expected an enum object"

def LocationTypes.allFinite : LocationTypes → Bool
  | .Point _ => true
  | .Polygon p => p.allFinite

/-- Struct `LocationSchema` (src/src/ChatSurfer/messages.rs:860): field `aoi`
followed by field `r#type` (serialized as "type"). -/
structure LocationSchema where
  aoi : LocationTypes
  type : LocationType
deriving DecidableEq

def LocationSchema.toJson (l : LocationSchema) : Json :=
  .obj [("aoi", LocationTypes.toJson l.aoi),
        ("type", LocationType.toJson l.type)]

def LocationSchema.fromJson : Json → Except String LocationSchema
  | .obj fields => do
      let aoi ← reqField fields "aoi" LocationTypes.fromJson
      let t ← reqField fields "type" LocationType.fromJson
      .ok ⟨aoi, t⟩
  | _ => .error "expected an object"

def LocationSchema.allFinite (l : LocationSchema) : Bool :=
  l.aoi.allFinite

/-- Function `LocationSchema::new_polygon` (src/src/ChatSurfer/messages.rs:879). -/
def LocationSchema.new_polygon : LocationSchema :=
  ⟨.Polygon (PolygonLocation.new PolygonLocation.world_coordinates), .Polygon⟩

/-- Function `LocationSchema::test` (src/src/ChatSurfer/messages.rs:890): note
that it pairs a `Point` discriminator with a `Polygon` payload. -/
def LocationSchema.test (seed : F32) : LocationSchema :=
  ⟨.Polygon (PolygonLocation.test seed), .Point⟩

/-- Predicate: the `type` discriminator of a `LocationSchema` names the same
variant as its `aoi` coordinate payload. -/
def LocationSchema.discriminator_matches (l : LocationSchema) : Bool :=
  match l.type, l.aoi with
  | .Point, .Point _ => true
  | .Polygon, .Polygon _ => true
  | _, _ => false

/-- Struct `RegionSchema` (src/src/ChatSurfer/messages.rs:915). -/
structure RegionSchema where
  abbreviation : String
  bounds : List F32
  description : String
  name : String
  region_type : String
deriving DecidableEq

def RegionSchema.toJson (r : RegionSchema) : Json :=
  .obj [("abbreviation", .str r.abbreviation),
        ("bounds", .arr (r.bounds.map encodeF32)),
        ("description", .str r.description),
        ("name", .str r.name),
        ("regionType", .str r.region_type)]

def RegionSchema.fromJson : Json → Except String RegionSchema
  | .obj fields => do
      let ab ← reqField fields "abbreviation" decodeString
      let bs ← reqField fields "bounds" (decodeList decodeF32)
      let ds ← reqField fields "description" decodeString
      let nm ← reqField fields "name" decodeString
      let rt ← reqField fields "regionType" decodeString
      .ok ⟨ab, bs, ds, nm, rt⟩
  | _ => .error "expected an object"

def RegionSchema.allFinite (r : RegionSchema) : Bool :=
  r.bounds.all F32.isFinite

/-- Struct `GeoTagSchema` (src/src/ChatSurfer/messages.rs:965). -/
structure GeoTagSchema where
  anchor_end : Int
  anchor_start : Int
  anchor_text : String
  confidence : F32
  location : LocationSchema
  regions : List RegionSchema
  type : String
deriving DecidableEq

def GeoTagSchema.toJson (g : GeoTagSchema) : Json :=
  .obj [("anchorEnd", .int g.anchor_end),
        ("anchorStart", .int g.anchor_start),
        ("anchorText", .str g.anchor_text),
        ("confidence", encodeF32 g.confidence),
        ("location", LocationSchema.toJson g.location),
        ("regions", .arr (g.regions.map RegionSchema.toJson)),
        ("type", .str g.type)]

def GeoTagSchema.fromJson : Json → Except String GeoTagSchema
  | .obj fields => do
      let ae ← reqField fields "anchorEnd" decodeI64
      let as' ← reqField fields "anchorStart" decodeI64
      let at' ← reqField fields "anchorText" decodeString
      let cf ← reqField fields "confidence" decodeF32
      let loc ← reqField fields "location" LocationSchema.fromJson
      let rs ← reqField fields "regions" (decodeList RegionSchema.fromJson)
      let t ← reqField fields "type" decodeString
      .ok ⟨ae, as', at', cf, loc, rs, t⟩
  | _ => .error "expected an object"

def GeoTagSchema.allFinite (g : GeoTagSchema) : Bool :=
  g.confidence.isFinite && g.location.allFinite && g.regions.all RegionSchema.allFinite

/-- Encode an `Option` field: serde serializes `None` as `null`. -/
def encodeOpt (enc : α → Json) : Option α → Json
  | none => .null
  | some a => enc a

/-- Struct `ChatMessageSchema` (src/src/ChatSurfer/messages.rs:599).  The Rust
field `private` is spelled `private'` here because `private` is a Lean
keyword. -/
structure ChatMessageSchema where
  classification : String
  domain_id : String
  geo_tags : Option (List GeoTagSchema)
  id : String
  room_name : String
  sender : String
  text : String
  thread_id : Option String
  timestamp : String
  user_id : String
  private' : Bool
deriving DecidableEq

def ChatMessageSchema.toJson (m : ChatMessageSchema) : Json :=
  .obj [("classification", .str m.classification),
        ("domainId", .str m.domain_id),
        ("geoTags", encodeOpt (fun l => Json.arr (l.map GeoTagSchema.toJson)) m.geo_tags),
        ("id", .str m.id),
        ("roomName", .str m.room_name),
        ("sender", .str m.sender),
        ("text", .str m.text),
        ("threadId", encodeOpt Json.str m.thread_id),
        ("timestamp", .str m.timestamp),
        ("userId", .str m.user_id),
        ("private", .bool m.private')]

def ChatMessageSchema.fromJson : Json → Except String ChatMessageSchema
  | .obj fields => do
      let cls ← reqField fields "classification" decodeString
      let dom ← reqField fields "domainId" decodeString
      let gts ← optField fields "geoTags" (decodeList GeoTagSchema.fromJson)
      let id ← reqField fields "id" decodeString
      let room ← reqField fields "roomName" decodeString
      let snd ← reqField fields "sender" decodeString
      let txt ← reqField fields "text" decodeString
      let tid ← optField fields "threadId" decodeString
      let ts ← reqField fields "timestamp" decodeString
      let uid ← reqField fields "userId" decodeString
      let pv ← reqField fields "private" decodeBool
      .ok ⟨cls, dom, gts, id, room, snd, txt, tid, ts, uid, pv⟩
  | _ => .error "expected an object"

def ChatMessageSchema.allFinite (m : ChatMessageSchema) : Bool :=
  match m.geo_tags with
  | none => true
  | some l => l.all GeoTagSchema.allFinite

/-- Struct `GetChatMessagesResponse` (src/src/ChatSurfer/messages.rs:355). -/
structure GetChatMessagesResponse where
  classification : String
  messages : List ChatMessageSchema
  domain_id : String
  private' : Bool
  room_name : String
deriving DecidableEq

/-- Struct `TimeFilterResponse` (src/src/ChatSurfer/messages.rs:1251). -/
structure TimeFilterResponse where
  end_date_time : String
deriving DecidableEq

/-- Struct `SearchChatMessagesResponse` (src/src/ChatSurfer/messages.rs:523). -/
structure SearchChatMessagesResponse where
  classification : String
  messages : Option (List ChatMessageSchema)
  next_cursor_mark : Option String
  search_time_filter : TimeFilterResponse
  total : Int
deriving DecidableEq

/-- Enum `ChatSurferResponseType` (src/src/ChatSurfer/messages.rs:581). -/
inductive ChatSurferResponseType where
  | SendChatMessage
  | GetChatMessages (body : GetChatMessagesResponse)
  | SearchChatMessages (body : SearchChatMessagesResponse)
  | Failure400 (body : ErrorCode400)
  | Failure404 (body : ErrorCode404)
  | Failure429
deriving DecidableEq

/-- Function `parse_error_message` (src/src/ChatSurfer/messages.rs:57).  The
HTTP status code is modelled as its numeric value; the response body is the
parsed JSON tree of the `response` string.  Note the function itself returns
`Err` both for an unrecognized status code and for a 400/404 body that fails
to parse. -/
def parse_error_message (status_code : Nat) (response : Json) :
    Except String ChatSurferResponseType :=
  if status_code = 400 then
    match ErrorCode400.try_from_string response with
    | .ok body => .ok (.Failure400 body)
    | .error e => .error ("Unable to convert the response body to a ErrorCode400 struct. " ++ e)
  else if status_code = 404 then
    match ErrorCode404.try_from_string response with
    | .ok body => .ok (.Failure404 body)
    | .error e => .error ("Unable to convert the response body to a ErrorCode404 struct. " ++ e)
  else if status_code = 429 then
    .ok .Failure429
  else
    .error "Error - Message contents do not match any expected format."

/-- Struct `KeywordFilter` (src/src/ChatSurfer/messages.rs:1018). -/
structure KeywordFilter where
  query : String
deriving DecidableEq

/-- Function `KeywordFilter::try_from_vec` (src/src/ChatSurfer/messages.rs:1043).
`Vec::pop` removes the last element (`getLast?`), leaving `dropLast`; the
remaining keywords are folded in only when more than one of them is left. -/
def KeywordFilter.try_from_vec (keywords : List String) : Except String KeywordFilter :=
  match keywords.getLast? with
  | some combined_keywords =>
      let remaining := keywords.dropLast
      if remaining.length > 1 then
        .ok ⟨remaining.foldl (fun acc keyword => acc ++ " " ++ keyword) combined_keywords⟩
      else
        .ok ⟨combined_keywords⟩
  | none => .error "No keywords to use."

/-- Substring occurrence, used to state that a query string contains a
keyword. -/
def stringContains (hay needle : String) : Bool :=
  (List.range (hay.data.length + 1)).any (fun i => needle.data.isPrefixOf (hay.data.drop i))

-- ===========================================================================
-- src/src/messages.rs — Edge View error envelope and responses
-- ===========================================================================

/-- Struct `Error` (src/src/messages.rs:31), the client-facing error
envelope: classification, numeric code and message only. -/
structure Error where
  classification : String
  code : Nat
  message : String
deriving DecidableEq

def Error.toJson (e : Error) : Json :=
  .obj [("classification", .str e.classification),
        ("code", .int e.code),
        ("message", .str e.message)]

/-- Function `Error::new_unclassified_message` (src/src/messages.rs:52). -/
def Error.new_unclassified_message (message : String) : Error :=
  ⟨"UNCLASSIFIED", 500, message⟩

/-- Function `Error::from_400` (src/src/messages.rs:62): copies
classification, code and message from the `ErrorCode400`; the struct has no
field for the upstream's `field_errors`. -/
def Error.from_400 (error : ErrorCode400) : Error :=
  ⟨error.classification, error.code, error.message⟩

/-- Function `Error::from_404` (src/src/messages.rs:72). -/
def Error.from_404 (error : ErrorCode404) : Error :=
  ⟨error.classification, error.code, error.message⟩

/-- Function `Error::new_429` (src/src/messages.rs:83):
`StatusCode::TOO_MANY_REQUESTS.as_u16()` is 429. -/
def Error.new_429 : Error :=
  ⟨"UNCLASSIFIED", 429, "Too many requests"⟩

/-- Function `Error::try_to_json` (src/src/messages.rs:93).
`serde_json::to_string` fails only for erroring `Serialize` impls or maps
with non-string keys; the derived serializer for this shape is total, so the
`Err` branch is vacuous and the call is modelled as the total encoder. -/
def Error.try_to_json (e : Error) : Except String Json :=
  .ok (Error.toJson e)

/-- Struct `SendNewMessageResponse` (src/src/messages.rs:234). -/
structure SendNewMessageResponse where
  message : String
deriving DecidableEq

/-- Function `SendNewMessageResponse::new_204` (src/src/messages.rs:239). -/
def SendNewMessageResponse.new_204 : SendNewMessageResponse :=
  ⟨"Successful - No Response Content"⟩

def SendNewMessageResponse.toJson (r : SendNewMessageResponse) : Json :=
  .obj [("message", .str r.message)]

/-- Function `SendNewMessageResponse::try_to_json` (src/src/messages.rs:245). -/
def SendNewMessageResponse.try_to_json (r : SendNewMessageResponse) : Except String Json :=
  .ok (SendNewMessageResponse.toJson r)

/-- Struct `GetMessagesResponse` (src/src/messages.rs:294). -/
structure GetMessagesResponse where
  classification : String
  messages : List ChatMessageSchema
deriving DecidableEq

def GetMessagesResponse.toJson (r : GetMessagesResponse) : Json :=
  .obj [("classification", .str r.classification),
        ("messages", .arr (r.messages.map ChatMessageSchema.toJson))]

def GetMessagesResponse.fromJson : Json → Except String GetMessagesResponse
  | .obj fields => do
      let cls ← reqField fields "classification" decodeString
      let msgs ← reqField fields "messages" (decodeList ChatMessageSchema.fromJson)
      .ok ⟨cls, msgs⟩
  | _ => .error "expected an object"

/-- Function `GetMessagesResponse::try_from_json` (src/src/messages.rs:320). -/
def GetMessagesResponse.try_from_json (json : Json) : Except String GetMessagesResponse :=
  (GetMessagesResponse.fromJson json).mapError
    (fun e => "Unable to create GetMessagesResponse struct from String: " ++ e)

/-- Function `GetMessagesResponse::try_to_json` (src/src/messages.rs:329). -/
def GetMessagesResponse.try_to_json (r : GetMessagesResponse) : Except String Json :=
  .ok (GetMessagesResponse.toJson r)

def GetMessagesResponse.allFinite (r : GetMessagesResponse) : Bool :=
  r.messages.all ChatMessageSchema.allFinite

/-- Struct `GetUsersResponse` (src/src/messages.rs:403). -/
structure GetUsersResponse where
  user_names : List String
deriving DecidableEq

def GetUsersResponse.toJson (r : GetUsersResponse) : Json :=
  .obj [("userNames", .arr (r.user_names.map Json.str))]

def GetUsersResponse.fromJson : Json → Except String GetUsersResponse
  | .obj fields => do
      let un ← reqField fields "userNames" (decodeList decodeString)
      .ok ⟨un⟩
  | _ => .error "expected an object"

/-- Function `GetUsersResponse::try_from_json` (src/src/messages.rs:427). -/
def GetUsersResponse.try_from_json (json : Json) : Except String GetUsersResponse :=
  (GetUsersResponse.fromJson json).mapError
    (fun e => "Unable to create GetUsersResponse struct from String: " ++ e)

/-- Function `GetUsersResponse::try_to_json` (src/src/messages.rs:436). -/
def GetUsersResponse.try_to_json (r : GetUsersResponse) : Except String Json :=
  .ok (GetUsersResponse.toJson r)

/-- Struct `SearchMessagesResponse` (src/src/messages.rs:489). -/
structure SearchMessagesResponse where
  messages : List ChatMessageSchema
deriving DecidableEq

def SearchMessagesResponse.toJson (r : SearchMessagesResponse) : Json :=
  .obj [("messages", .arr (r.messages.map ChatMessageSchema.toJson))]

/-- Function `SearchMessagesResponse::try_to_json` (src/src/messages.rs:496). -/
def SearchMessagesResponse.try_to_json (r : SearchMessagesResponse) : Except String Json :=
  .ok (SearchMessagesResponse.toJson r)

/-- Enum `EdgeViewResponseTypes` (src/src/messages.rs:511). -/
inductive EdgeViewResponseTypes where
  | SendNewMessage (body : SendNewMessageResponse)
  | GetMessages (body : GetMessagesResponse)
  | GetUsers (body : GetUsersResponse)
  | SearchMessages (body : SearchMessagesResponse)
  | Error (body : Error)
deriving DecidableEq

/-- Function `EdgeViewResponseTypes::try_to_json` (src/src/messages.rs:520). -/
def EdgeViewResponseTypes.try_to_json : EdgeViewResponseTypes → Except String Json
  | .SendNewMessage body =>
      (body.try_to_json).mapError (fun e =>
        "Failed to convert the SendNewMessageResponse variant of the EdgeViewResponseTypes enum to a string. " ++ e)
  | .GetMessages body =>
      (body.try_to_json).mapError (fun e =>
        "Failed to convert the GetMessagesResponse variant of the EdgeViewResponseTypes enum to a string. " ++ e)
  | .GetUsers body =>
      (body.try_to_json).mapError (fun e =>
        "Failed to convert the GetUsersResponse variant of the EdgeViewResponseTypes enum to a string. " ++ e)
  | .SearchMessages body =>
      (body.try_to_json).mapError (fun e =>
        "Failed to convert the SearchMessagesResponse variant of the EdgeViewResponseTypes enum to a string. " ++ e)
  | .Error body =>
      (body.try_to_json).mapError (fun e =>
        "Failed to convert the Error variant of the EdgeViewResponseTypes enum to a string. " ++ e)

-- ===========================================================================
-- Rate Budget Tracker and Dispatcher reaction (modelled from the spec)
-- ===========================================================================

/-- Outcome of a budget reservation. -/
inductive Decision where
  | Granted
  | Denied
deriving DecidableEq

/-- Modelled from the spec: the Rate Budget Tracker state of section 4.4.
Only the ceiling constant `MAX_REQUESTS_PER_MINUTE` exists under src/; the
tracker itself (`reserve()`, the fixed window) is absent from the sources,
so it is modelled from the specification: a rolling count of requests in the
current window, the window starting at the first reservation. -/
structure RateBudget where
  window_start : Option Nat
  count : Nat
deriving DecidableEq

/-- Modelled from the spec: `reserve() -> Granted | Denied` with a fixed
window that resets strictly every 60 seconds from the first reservation in
the window, ceiling `MAX_REQUESTS_PER_MINUTE`.  `now` is the current time in
seconds. -/
def RateBudget.reserve (now : Nat) (s : RateBudget) : Decision × RateBudget :=
  match s.window_start with
  | none => (.Granted, ⟨some now, 1⟩)
  | some t0 =>
      if t0 + 60 ≤ now then (.Granted, ⟨some now, 1⟩)
      else if s.count < MAX_REQUESTS_PER_MINUTE then (.Granted, ⟨some t0, s.count + 1⟩)
      else (.Denied, s)

/-- Process a sequence of reservation requests (timestamps in seconds),
returning the decisions in order and the final tracker state. -/
def reserveRun (s : RateBudget) : List Nat → List Decision × RateBudget
  | [] => ([], s)
  | t :: ts =>
      let step := RateBudget.reserve t s
      let rest := reserveRun step.2 ts
      (step.1 :: rest.1, rest.2)

/-- What the Dispatcher does with a reservation decision. -/
structure DispatchOutcome where
  response : Option Error
  contacted_upstream : Bool
deriving DecidableEq

/-- Modelled from the spec: when the tracker answers `Denied` the Dispatcher
synthesizes a 429-class envelope locally (`Error::new_429`,
src/src/messages.rs:83) instead of forwarding to the upstream; when
`Granted` it forwards the request upstream. -/
def dispatch_reservation : Decision → DispatchOutcome
  | .Granted => ⟨none, true⟩
  | .Denied => ⟨some Error.new_429, false⟩

-- ===========================================================================
-- src/src/main.rs — connection lifecycle traces
-- ===========================================================================

/-- Close codes as used by the client (only the normal closure appears). -/
inductive WsCloseCode where
  | Normal
deriving DecidableEq

/-- Observable WebSocket actions of a connection, in program order.  Frame
payloads are JSON trees (their rendering is the external text layer). -/
inductive WsAction where
  | sendFrame (payload : Json)
  | readFrame
  | sendClose (code : WsCloseCode) (reason : String)

def WsAction.isClose : WsAction → Bool
  | .sendClose _ _ => true
  | _ => false

/-- Trace of `ws_connect_send` (src/src/main.rs:146) after the connection is
up: the request frame is sent; on success one response read is attempted;
then — unconditionally — a Close frame with `CloseCode::Normal` and reason
"Complete" is sent (src/src/main.rs:203), and the function returns without
touching the connection again.  `message` is the request frame passed by the
caller; `sendOk` abstracts whether the transport accepted the send. -/
def ws_connect_send_trace (message : Json) (sendOk : Bool) : List WsAction :=
  WsAction.sendFrame message ::
    ((if sendOk then [WsAction.readFrame] else []) ++
      [WsAction.sendClose .Normal "Complete"])

/-- Iterations of the bounded-repeat loops in src/src/main.rs: iteration `i`
sends the request frame and, when the transport accepted the send, attempts
one response read; a failed iteration does not abort the remaining ones. -/
def repeatIterations (frame : Json) (sendOk : Nat → Bool) : Nat → List WsAction
  | 0 => []
  | n + 1 =>
      repeatIterations frame sendOk n ++
        (WsAction.sendFrame frame :: (if sendOk n then [WsAction.readFrame] else []))

/-- Trace of `test_send_new_message_repeat` (src/src/main.rs:246): three
iterations on one connection, after which the function returns without
sending any Close frame.  `frame` is the payload built by
`build_new_message_request()`. -/
def test_send_new_message_repeat_trace (frame : Json) (sendOk : Nat → Bool) : List WsAction :=
  repeatIterations frame sendOk 3

/-- Trace of `test_get_users_repeat` (src/src/main.rs:298): three iterations
on one connection, then a Close frame with `CloseCode::Normal` and reason
"Complete" (src/src/main.rs:339). -/
def test_get_users_repeat_trace (frame : Json) (sendOk : Nat → Bool) : List WsAction :=
  repeatIterations frame sendOk 3 ++ [WsAction.sendClose .Normal "Complete"]

-- ===========================================================================
-- Concrete values used by counterexamples
-- ===========================================================================

/-- IEEE-754 bit pattern of the canonical `f32` NaN (0x7FC00000). -/
def f32_nan : F32 := ⟨2143289344⟩

/-- A geotag whose confidence is NaN. -/
def nanGeoTag : GeoTagSchema :=
  ⟨0, 0, "anchor", f32_nan, ⟨.Point ⟨⟩, .Point⟩, [], "GEO"⟩

/-- A chat message carrying `nanGeoTag`. -/
def nanChatMessage : ChatMessageSchema :=
  ⟨"UNCLASSIFIED", "domain1", some [nanGeoTag], "id1", "room1", "sender1",
   "text1", none, "ts1", "user1", false⟩

/-- A `GetMessagesResponse` containing a NaN confidence value. -/
def nanGetMessagesResponse : GetMessagesResponse :=
  ⟨"UNCLASSIFIED", [nanChatMessage]⟩

-- ===========================================================================
-- Helper lemmas: JSON round-trips
-- ===========================================================================

@[simp]
theorem except_bind_ok (a : α) (f : α → Except ε β) :
    (Except.ok a : Except ε α) >>= f = f a := rfl

@[simp]
theorem except_bind_error (e : ε) (f : α → Except ε β) :
    (Except.error e : Except ε α) >>= f = .error e := rfl

@[simp]
theorem except_map_ok (f : α → β) (a : α) :
    Except.map f (Except.ok a : Except ε α) = .ok (f a) := rfl

@[simp]
theorem decodeString_str (s : String) : decodeString (.str s) = .ok s := rfl

@[simp]
theorem decodeU16_nat (n : Nat) : decodeU16 (.int n) = .ok n := by
  simp [decodeU16]

@[simp]
theorem decodeStringList_map (l : List String) :
    decodeListAux decodeString (l.map Json.str) = .ok l := by
  induction l with
  | nil => rfl
  | cons x xs ih => simp [decodeListAux, ih]

theorem fieldError_roundtrip (e : FieldErrorSchema) :
    FieldErrorSchema.fromJson (FieldErrorSchema.toJson e) = .ok e := by
  simp [FieldErrorSchema.toJson, FieldErrorSchema.fromJson, reqField, lookupField,
        decodeList]

theorem errorCode400_roundtrip (e : ErrorCode400) :
    ErrorCode400.fromJson (ErrorCode400.toJson e) = .ok e := by
  have hfe : decodeListAux FieldErrorSchema.fromJson
      (e.field_errors.map FieldErrorSchema.toJson) = .ok e.field_errors := by
    induction e.field_errors with
    | nil => rfl
    | cons x xs ih => simp [decodeListAux, fieldError_roundtrip, ih]
  simp [ErrorCode400.toJson, ErrorCode400.fromJson, reqField, lookupField,
        decodeList, hfe]

theorem errorCode404_roundtrip (e : ErrorCode404) :
    ErrorCode404.fromJson (ErrorCode404.toJson e) = .ok e := by
  simp [ErrorCode404.toJson, ErrorCode404.fromJson, reqField, lookupField]

@[simp]
theorem decodeBool_bool (b : Bool) : decodeBool (.bool b) = .ok b := rfl

@[simp]
theorem decodeI64_int (n : Int) : decodeI64 (.int n) = .ok n := rfl

theorem decodeF32_enc (x : F32) (h : x.isFinite = true) :
    decodeF32 (encodeF32 x) = .ok x := by
  simp [encodeF32, decodeF32, h]

theorem decodeF32List (l : List F32) (h : l.all F32.isFinite = true) :
    decodeListAux decodeF32 (l.map encodeF32) = .ok l := by
  induction l with
  | nil => rfl
  | cons x xs ih =>
      simp only [List.all_cons, Bool.and_eq_true] at h
      simp [decodeListAux, decodeF32_enc x h.1, ih h.2]

theorem decodeF32Rows (l : List (List F32))
    (h : l.all (fun row => row.all F32.isFinite) = true) :
    decodeListAux (decodeList decodeF32)
      (l.map (fun row => Json.arr (row.map encodeF32))) = .ok l := by
  induction l with
  | nil => rfl
  | cons r rs ih =>
      simp only [List.all_cons, Bool.and_eq_true] at h
      simp [decodeListAux, decodeList, decodeF32List r h.1, ih h.2]

theorem pointLocation_roundtrip (p : PointLocation) :
    PointLocation.fromJson (PointLocation.toJson p) = .ok p := by
  cases p
  rfl

theorem polygonLocation_roundtrip (p : PolygonLocation) (h : p.allFinite = true) :
    PolygonLocation.fromJson (PolygonLocation.toJson p) = .ok p := by
  simp [PolygonLocation.toJson, PolygonLocation.fromJson, reqField, lookupField,
        decodeList, decodeF32Rows p.coordinates h]

theorem locationType_roundtrip (t : LocationType) :
    LocationType.fromJson (LocationType.toJson t) = .ok t := by
  cases t <;> rfl

theorem locationTypes_roundtrip (a : LocationTypes) (h : a.allFinite = true) :
    LocationTypes.fromJson (LocationTypes.toJson a) = .ok a := by
  cases a with
  | Point location => cases location; rfl
  | Polygon location =>
      simp only [LocationTypes.allFinite] at h
      simp [LocationTypes.toJson, LocationTypes.fromJson, reqField, lookupField,
            polygonLocation_roundtrip location h, Except.map]

theorem locationSchema_roundtrip (l : LocationSchema) (h : l.allFinite = true) :
    LocationSchema.fromJson (LocationSchema.toJson l) = .ok l := by
  simp only [LocationSchema.allFinite] at h
  simp [LocationSchema.toJson, LocationSchema.fromJson, reqField, lookupField,
        locationTypes_roundtrip l.aoi h, locationType_roundtrip]

theorem regionSchema_roundtrip (r : RegionSchema) (h : r.allFinite = true) :
    RegionSchema.fromJson (RegionSchema.toJson r) = .ok r := by
  simp only [RegionSchema.allFinite] at h
  simp [RegionSchema.toJson, RegionSchema.fromJson, reqField, lookupField,
        decodeList, decodeF32List r.bounds h]

theorem regionList_roundtrip (l : List RegionSchema)
    (h : l.all RegionSchema.allFinite = true) :
    decodeListAux RegionSchema.fromJson (l.map RegionSchema.toJson) = .ok l := by
  induction l with
  | nil => rfl
  | cons r rs ih =>
      simp only [List.all_cons, Bool.and_eq_true] at h
      simp [decodeListAux, regionSchema_roundtrip r h.1, ih h.2]

theorem geoTag_roundtrip (g : GeoTagSchema) (h : g.allFinite = true) :
    GeoTagSchema.fromJson (GeoTagSchema.toJson g) = .ok g := by
  simp only [GeoTagSchema.allFinite, Bool.and_eq_true] at h
  obtain ⟨⟨h1, h2⟩, h3⟩ := h
  simp [GeoTagSchema.toJson, GeoTagSchema.fromJson, reqField, lookupField,
        decodeF32_enc g.confidence h1, locationSchema_roundtrip g.location h2,
        decodeList, regionList_roundtrip g.regions h3]

theorem geoTagList_roundtrip (l : List GeoTagSchema)
    (h : l.all GeoTagSchema.allFinite = true) :
    decodeListAux GeoTagSchema.fromJson (l.map GeoTagSchema.toJson) = .ok l := by
  induction l with
  | nil => rfl
  | cons g gs ih =>
      simp only [List.all_cons, Bool.and_eq_true] at h
      simp [decodeListAux, geoTag_roundtrip g h.1, ih h.2]

theorem chatMessage_roundtrip (m : ChatMessageSchema) (h : m.allFinite = true) :
    ChatMessageSchema.fromJson (ChatMessageSchema.toJson m) = .ok m := by
  obtain ⟨cls, dom, gts, id, room, snd, txt, tid, ts, uid, pv⟩ := m
  simp only [ChatMessageSchema.allFinite] at h
  cases gts with
  | none =>
      cases tid <;>
        simp [ChatMessageSchema.toJson, ChatMessageSchema.fromJson, reqField,
              optField, lookupField, encodeOpt]
  | some l =>
      cases tid <;>
        simp [ChatMessageSchema.toJson, ChatMessageSchema.fromJson, reqField,
              optField, lookupField, encodeOpt, decodeList, geoTagList_roundtrip l h]

theorem chatMessageList_roundtrip (l : List ChatMessageSchema)
    (h : l.all ChatMessageSchema.allFinite = true) :
    decodeListAux ChatMessageSchema.fromJson (l.map ChatMessageSchema.toJson) = .ok l := by
  induction l with
  | nil => rfl
  | cons m ms ih =>
      simp only [List.all_cons, Bool.and_eq_true] at h
      simp [decodeListAux, chatMessage_roundtrip m h.1, ih h.2]

theorem getMessagesResponse_roundtrip (r : GetMessagesResponse) (h : r.allFinite = true) :
    GetMessagesResponse.fromJson (GetMessagesResponse.toJson r) = .ok r := by
  simp only [GetMessagesResponse.allFinite] at h
  simp [GetMessagesResponse.toJson, GetMessagesResponse.fromJson, reqField, lookupField,
        decodeList, chatMessageList_roundtrip r.messages h]

theorem getUsersResponse_roundtrip (r : GetUsersResponse) :
    GetUsersResponse.fromJson (GetUsersResponse.toJson r) = .ok r := by
  simp [GetUsersResponse.toJson, GetUsersResponse.fromJson, reqField, lookupField,
        decodeList]

-- ===========================================================================
-- Helper lemmas: rate budget and traces
-- ===========================================================================

theorem reserveRun_grant_all (t0 : Nat) (ts : List Nat) :
    ∀ c, (∀ t ∈ ts, t < t0 + 60) → c + ts.length ≤ 60 →
      reserveRun ⟨some t0, c⟩ ts =
        (List.replicate ts.length Decision.Granted, ⟨some t0, c + ts.length⟩) := by
  induction ts with
  | nil => intro c _ _; simp [reserveRun]
  | cons t ts ih =>
      intro c hin hc
      have ht : t < t0 + 60 := hin t (by simp)
      have hstep : RateBudget.reserve t ⟨some t0, c⟩ = (Decision.Granted, ⟨some t0, c + 1⟩) := by
        simp only [RateBudget.reserve, MAX_REQUESTS_PER_MINUTE]
        rw [if_neg (by omega), if_pos (by simp at hc; omega)]
      have hrest := ih (c + 1) (fun t' ht' => hin t' (by simp [ht'])) (by simp at hc ⊢; omega)
      simp [reserveRun, hstep, hrest, List.replicate_succ]
      omega

theorem reserveRun_append (xs ys : List Nat) : ∀ s : RateBudget,
    reserveRun s (xs ++ ys) =
      ((reserveRun s xs).1 ++ (reserveRun (reserveRun s xs).2 ys).1,
       (reserveRun (reserveRun s xs).2 ys).2) := by
  induction xs with
  | nil => intro s; simp [reserveRun]
  | cons t xs ih => intro s; simp [reserveRun, ih]

theorem getLast?_append_singleton (l : List α) (a : α) :
    (l ++ [a]).getLast? = some a := by
  induction l with
  | nil => rfl
  | cons x xs ih => simp [List.getLast?, ih]

theorem repeatIterations_no_close (frame : Json) (sendOk : Nat → Bool) (n : Nat) :
    ∀ a ∈ repeatIterations frame sendOk n, WsAction.isClose a = false := by
  induction n with
  | zero => simp [repeatIterations]
  | succ k ih =>
      intro a ha
      simp only [repeatIterations, List.mem_append, List.mem_cons] at ha
      rcases ha with h | h | h
      · exact ih a h
      · subst h; rfl
      · cases hk : sendOk k <;> rw [hk] at h <;> simp at h
        subst h; rfl

-- ===========================================================================
-- Claim theorems
-- ===========================================================================

/-- C1, counterexample: translating an upstream 400 body through
`Error::from_400` does NOT carry the per-field validation errors into the
envelope.  The client-facing `Error` struct has no field-error component at
all, so two upstream bodies that differ only in their (non-trivial versus
empty) field-error lists are mapped to the very same envelope; no envelope
can therefore contain the field-error entries of its input. -/
theorem from_400_field_errors_collapse :
    Error.from_400
        ⟨"UNCLASSIFIED", 400,
         [⟨"roomName", "must not be blank", ["roomName"], "NotBlank", ""⟩],
         "Bad Request"⟩
      = Error.from_400 ⟨"UNCLASSIFIED", 400, [], "Bad Request"⟩ ∧
    ([⟨"roomName", "must not be blank", ["roomName"], "NotBlank", ""⟩] :
        List FieldErrorSchema) ≠ [] := by
  exact ⟨rfl, by simp⟩

/-- C1, amended: `Error::from_400` carries the classification, the numeric
code and the message of the upstream `ErrorCode400` through unchanged, and
discards the field-error list — the resulting envelope is independent of it. -/
theorem from_400_preserves_triple (e : ErrorCode400) (fes : List FieldErrorSchema) :
    (Error.from_400 e).classification = e.classification ∧
    (Error.from_400 e).code = e.code ∧
    (Error.from_400 e).message = e.message ∧
    Error.from_400 ⟨e.classification, e.code, fes, e.message⟩ = Error.from_400 e :=
  ⟨rfl, rfl, rfl, rfl⟩

/-- C2, counterexample: `parse_error_message` does return errors to its
caller: an unrecognized status (502) yields `Err`, as does a 400 status
whose body does not parse as an `ErrorCode400` (here a JSON null body); it
does not itself produce any code-500 envelope. -/
theorem parse_error_message_returns_err :
    exceptIsOk (parse_error_message 502 (Json.str "Bad Gateway")) = false ∧
    exceptIsOk (parse_error_message 400 Json.null) = false :=
  ⟨rfl, rfl⟩

/-- C2, amended: for every status other than 400, 404 and 429,
`parse_error_message` returns `Err` with the fixed generic message, without
inspecting the body; building the code-500 generic envelope from such a
message is done by the caller via `Error::new_unclassified_message`, which
always yields classification "UNCLASSIFIED" and code 500. -/
theorem parse_error_message_unrecognized (status_code : Nat) (response : Json)
    (m : String) (h400 : status_code ≠ 400) (h404 : status_code ≠ 404)
    (h429 : status_code ≠ 429) :
    parse_error_message status_code response =
      .error "Error - Message contents do not match any expected format." ∧
    Error.new_unclassified_message m = ⟨"UNCLASSIFIED", 500, m⟩ := by
  refine ⟨?_, rfl⟩
  simp [parse_error_message, h400, h404, h429]

/-- C2, witness for `parse_error_message_unrecognized` at status 502. -/
theorem parse_error_message_unrecognized_witness :
    (502 : Nat) ≠ 400 ∧ (502 : Nat) ≠ 404 ∧ (502 : Nat) ≠ 429 ∧
    (parse_error_message 502 (Json.str "Bad Gateway") =
       .error "Error - Message contents do not match any expected format." ∧
     Error.new_unclassified_message "oops" = ⟨"UNCLASSIFIED", 500, "oops"⟩) :=
  ⟨by decide, by decide, by decide,
   parse_error_message_unrecognized 502 (Json.str "Bad Gateway") "oops"
     (by decide) (by decide) (by decide)⟩

/-- C3: evaluating `KeywordFilter::try_from_vec` at the failing input
`vec!["alpha", "beta"]`.  `pop()` takes "beta"; the remaining list
`["alpha"]` has length 1, which fails the `len() > 1` guard, so "alpha" is
never folded into the query: the resulting query is exactly "beta" and the
keyword "alpha" does not occur in it as a substring — contradicting both the
claim and the function's own documentation that the keywords are combined
into a single query. -/
theorem try_from_vec_two_keywords_drops_one :
    KeywordFilter.try_from_vec ["alpha", "beta"] = .ok ⟨"beta"⟩ ∧
    stringContains "beta" "alpha" = false :=
  ⟨rfl, rfl⟩

/-- C4: with the window opened by the first reservation at time `t0` and all
60 further reservation requests falling inside the fixed 60-second window
`[t0, t0 + 60)`, the tracker grants exactly the first 60 requests and denies
the 61st; on `Denied`, the Dispatcher synthesizes the local 429 envelope
(`Error::new_429`, numeric code 429) and does not contact the upstream. -/
theorem rate_budget_61st_denied (t0 : Nat) (rest : List Nat)
    (hlen : rest.length = 60)
    (hin : ∀ t ∈ rest, t0 ≤ t ∧ t < t0 + 60) :
    (reserveRun ⟨none, 0⟩ (t0 :: rest)).1 =
      List.replicate 60 Decision.Granted ++ [Decision.Denied] ∧
    dispatch_reservation Decision.Denied = ⟨some Error.new_429, false⟩ ∧
    Error.new_429.code = 429 := by
  refine ⟨?_, rfl, rfl⟩
  obtain ⟨tl, htl⟩ : ∃ a, rest.drop 59 = [a] := by
    apply List.length_eq_one.mp
    simp [List.length_drop, hlen]
  have hmem_take : ∀ t ∈ rest.take 59, t < t0 + 60 :=
    fun t ht => (hin t (List.take_subset _ _ ht)).2
  have hlen59 : (rest.take 59).length = 59 := by
    simp [List.length_take, hlen]
  have hgrant := reserveRun_grant_all t0 (rest.take 59) 1 hmem_take (by omega)
  rw [hlen59] at hgrant
  have htlw : tl < t0 + 60 := by
    refine (hin tl ?_).2
    have : tl ∈ rest.drop 59 := by simp [htl]
    exact List.drop_subset _ _ this
  have hdeny : RateBudget.reserve tl ⟨some t0, 60⟩ = (Decision.Denied, ⟨some t0, 60⟩) := by
    simp only [RateBudget.reserve, MAX_REQUESTS_PER_MINUTE]
    rw [if_neg (by omega), if_neg (by omega)]
  have hsplit : t0 :: rest = t0 :: (rest.take 59 ++ rest.drop 59) := by
    rw [List.take_append_drop]
  rw [hsplit, htl]
  have hfirst : RateBudget.reserve t0 ⟨none, 0⟩ = (Decision.Granted, ⟨some t0, 1⟩) := rfl
  simp [reserveRun, hfirst, reserveRun_append, hgrant, hdeny]

/-- C4, witness for `rate_budget_61st_denied`: 61 reservations, the first at
time 0 and sixty more at time 5, all within the window `[0, 60)`. -/
theorem rate_budget_61st_denied_witness :
    (List.replicate 60 (5 : Nat)).length = 60 ∧
    (∀ t ∈ List.replicate 60 (5 : Nat), 0 ≤ t ∧ t < 0 + 60) ∧
    ((reserveRun ⟨none, 0⟩ (0 :: List.replicate 60 (5 : Nat))).1 =
       List.replicate 60 Decision.Granted ++ [Decision.Denied] ∧
     dispatch_reservation Decision.Denied = ⟨some Error.new_429, false⟩ ∧
     Error.new_429.code = 429) :=
  ⟨by simp, by intro t ht; simp at ht; omega,
   rate_budget_61st_denied 0 (List.replicate 60 5) (by simp)
     (by intro t ht; simp at ht; omega)⟩

/-- C5, counterexample: encode-then-decode is not the identity on every
`GetMessagesResponse`.  `nanGetMessagesResponse` carries a geotag whose
`confidence` is the `f32` NaN; serde_json serializes the non-finite float as
JSON `null`, and decoding `null` back into an `f32` fails, so
`try_from_json ∘ try_to_json` returns `Err` instead of the original value. -/
theorem response_roundtrip_fails_on_nan :
    exceptIsOk (GetMessagesResponse.try_to_json nanGetMessagesResponse >>=
      GetMessagesResponse.try_from_json) = false :=
  rfl

/-- C5, amended: encoding then decoding is the identity on every
`GetUsersResponse`, and on every `GetMessagesResponse` all of whose
floating-point fields are finite; a non-finite float (serialized by
serde_json as `null`) makes the decoding step fail. -/
theorem response_roundtrip_finite (u : GetUsersResponse) (r : GetMessagesResponse)
    (h : r.allFinite = true) :
    (GetUsersResponse.try_to_json u >>= GetUsersResponse.try_from_json) = .ok u ∧
    (GetMessagesResponse.try_to_json r >>= GetMessagesResponse.try_from_json) = .ok r := by
  constructor
  · simp [GetUsersResponse.try_to_json, GetUsersResponse.try_from_json,
          getUsersResponse_roundtrip, Except.mapError]
  · simp [GetMessagesResponse.try_to_json, GetMessagesResponse.try_from_json,
          getMessagesResponse_roundtrip r h, Except.mapError]

/-- C5, witness for `response_roundtrip_finite` on concrete responses. -/
theorem response_roundtrip_finite_witness :
    (GetMessagesResponse.mk "UNCLASSIFIED" []).allFinite = true ∧
    ((GetUsersResponse.try_to_json ⟨["alice"]⟩ >>=
        GetUsersResponse.try_from_json) = .ok ⟨["alice"]⟩ ∧
     (GetMessagesResponse.try_to_json ⟨"UNCLASSIFIED", []⟩ >>=
        GetMessagesResponse.try_from_json) = .ok ⟨"UNCLASSIFIED", []⟩) :=
  ⟨rfl, response_roundtrip_finite ⟨["alice"]⟩ ⟨"UNCLASSIFIED", []⟩ rfl⟩

/-- C6, counterexample: in the bounded-repeat send-message mode
(`test_send_new_message_repeat`), no Close frame is ever sent — the trace of
a run whose sends all succeed contains no `sendClose` action at all, so it
is not the case that every protocol mode closes with a Close frame. -/
theorem repeat_send_mode_never_closes :
    (test_send_new_message_repeat_trace Json.null (fun _ => true)).all
      (fun a => !(WsAction.isClose a)) = true :=
  rfl

/-- C6, amended: the single request/response exchange (`ws_connect_send`)
and the bounded-repeat get-users mode (`test_get_users_repeat`) both end by
sending a Close frame with the normal-closure code and the human-readable
reason "Complete" as the last action on the connection (nothing follows it,
so the connection is not reused); the bounded-repeat send-message mode
(`test_send_new_message_repeat`), however, never sends any Close frame and
simply abandons the connection. -/
theorem close_frame_by_mode (message frame : Json) (b : Bool) (sendOk : Nat → Bool) :
    (ws_connect_send_trace message b).getLast? =
      some (WsAction.sendClose .Normal "Complete") ∧
    (test_get_users_repeat_trace frame sendOk).getLast? =
      some (WsAction.sendClose .Normal "Complete") ∧
    ∀ a ∈ test_send_new_message_repeat_trace frame sendOk, WsAction.isClose a = false := by
  refine ⟨?_, ?_, ?_⟩
  · cases b <;> rfl
  · exact getLast?_append_singleton _ _
  · exact repeatIterations_no_close frame sendOk 3

/-- C7: for every upstream 404 body, `parse_error_message` at status 404
recovers exactly the `ErrorCode404` encoded in the body, and
`Error::from_404` copies its classification, numeric code and message into
the envelope unchanged — in particular the scenario body with
classification "UNCLASSIFIED", code 404 and message "Room not found" is
delivered verbatim, with whatever code value the body carried copied as-is. -/
theorem from_404_preserves_fields (e : ErrorCode404) :
    parse_error_message 404 (ErrorCode404.toJson e) =
      .ok (ChatSurferResponseType.Failure404 e) ∧
    (Error.from_404 e).classification = e.classification ∧
    (Error.from_404 e).code = e.code ∧
    (Error.from_404 e).message = e.message := by
  refine ⟨?_, rfl, rfl, rfl⟩
  simp [parse_error_message, ErrorCode404.try_from_string,
        errorCode404_roundtrip, Except.mapError]

/-- C8: for an upstream 429 status, `parse_error_message` ignores the body
and yields the `Failure429` variant, and `Error::new_429` builds exactly the
envelope with classification "UNCLASSIFIED", numeric code 429 and the fixed
message "Too many requests". -/
theorem status_429_envelope (response : Json) :
    parse_error_message 429 response = .ok ChatSurferResponseType.Failure429 ∧
    Error.new_429 = ⟨"UNCLASSIFIED", 429, "Too many requests"⟩ := by
  refine ⟨?_, rfl⟩
  simp [parse_error_message]

/-- C9, counterexample: not every `LocationSchema` built by the program's
constructors has its `type` discriminator matching the variant of its `aoi`
payload: `LocationSchema::test` pairs the `Point` discriminator with a
`Polygon` coordinate payload. -/
theorem location_test_mismatch :
    LocationSchema.discriminator_matches (LocationSchema.test ⟨0⟩) = false :=
  rfl

/-- C9, amended: `LocationSchema::new_polygon` establishes the invariant
(`Polygon` discriminator with a `Polygon` payload), but the `test`
constructor violates it for every seed, pairing the `Point` discriminator
with a `Polygon` payload. -/
theorem location_constructor_discriminators (seed : F32) :
    LocationSchema.discriminator_matches LocationSchema.new_polygon = true ∧
    LocationSchema.discriminator_matches (LocationSchema.test seed) = false :=
  ⟨rfl, rfl⟩

/-- C10: serializing the client-facing error envelope and every
`EdgeViewResponseTypes` variant never fails — `try_to_json` returns `Ok` for
every value, so a wire frame can always be produced. -/
theorem try_to_json_total (e : Error) (r : EdgeViewResponseTypes) :
    exceptIsOk (Error.try_to_json e) = true ∧
    exceptIsOk (EdgeViewResponseTypes.try_to_json r) = true := by
  refine ⟨rfl, ?_⟩
  cases r <;> rfl
